import Mathlib

/-!
Verification of the miniclawd orchestration core against its specification.

This file gives a shallow embedding, in Lean 4, of the parts of the
miniclawd source relevant to the frozen claims:

* the session data model and its operations
  (`src/infrastructure/storage/session-store.ts`),
* the session persistence format and the `SessionManager`
  load / save / getOrCreate logic (same file),
* the session-key-to-filename mapping (`getSessionPath`, together with
  `safeFilename` from `src/utils/paths.ts`) and the inverse key
  reconstruction performed by `listSessions`,
* the agent turn loop `AgentLoop.processMessage` /
  `processSystemMessage` / `processDirect`
  (`src/application/agent-loop.ts`),
* the error-recovery paths of `AIProvider.chat`
  (`src/infrastructure/llm/ai-sdk-provider.ts`) and
  `MessageTool.execute` (`src/tools/message.ts`).

JavaScript strings are modelled as `String` / `List Char`; `Date` values
are modelled as ISO-timestamp strings passed explicitly (`now`
parameters); open `Record<string, unknown>` maps are modelled as
association lists `List (String × String)` with opaque string values;
promise-returning fallible externals (the model HTTP call, the outbound
send callback) are modelled as `Except String`-valued inputs.  Effectful
in-place mutation of a `Session` is modelled by returning the updated
value.
-/

namespace Miniclawd

/-! ## Data model -/

/-- `SessionMessage` from `core/types/session` (per spec §3:
role ∈ {user, assistant, tool}, content, timestamp; the optional
tool-call metadata field is never set on any code path modelled here and
is omitted). -/
structure SessionMessage where
  role : String
  content : String
  timestamp : String
  deriving Repr, DecidableEq

/-- `Session` from `core/types/session` (spec §3).  `createdAt` /
`updatedAt` are ISO-timestamp strings; `metadata` is an open map. -/
structure Session where
  key : String
  messages : List SessionMessage
  createdAt : String
  updatedAt : String
  metadata : List (String × String)
  deriving Repr, DecidableEq

/-- `InboundMessage` from `core/types/message` (spec §3). -/
structure InboundMessage where
  channel : String
  senderId : String
  chatId : String
  content : String
  media : List String
  metadata : List (String × String)
  deriving Repr, DecidableEq

/-- `OutboundMessage` from `core/types/message` (spec §3). -/
structure OutboundMessage where
  channel : String
  chatId : String
  content : String
  media : List String
  metadata : List (String × String)
  deriving Repr, DecidableEq

/-- `ToolCallRequest` from `core/types/tool`: id, tool name, and the
JSON argument object (modelled as an association list). -/
structure ToolCallRequest where
  id : String
  name : String
  arguments : List (String × String)
  deriving Repr, DecidableEq

/-- Token usage counts carried by an `LLMResponse`. -/
structure Usage where
  promptTokens : Nat
  completionTokens : Nat
  deriving Repr, DecidableEq

/-- `LLMResponse` from `core/types/llm`: `content` is `null`able. -/
structure LLMResponse where
  content : Option String
  toolCalls : List ToolCallRequest
  finishReason : String
  usage : Usage
  deriving Repr, DecidableEq

/-- `AIProvider.hasToolCalls` (ai-sdk-provider.ts line 389):
`response.toolCalls.length > 0`. -/
def hasToolCalls (response : LLMResponse) : Bool :=
  response.toolCalls.length > 0

/-! ## Session operations (session-store.ts lines 16-63) -/

/-- `createSession` (session-store.ts lines 16-24): fresh empty session;
both `Date` fields are the creation instant `now`. -/
def createSession (key now : String) : Session :=
  { key := key
    messages := []
    createdAt := now
    updatedAt := now
    metadata := [] }

/-- `addMessage` (session-store.ts lines 29-43): push one message with
the current timestamp and bump `updatedAt`.  The mutation of the passed
session is modelled by returning the updated session. -/
def addMessage (session : Session) (role content now : String) : Session :=
  { session with
      messages := session.messages ++ [{ role := role, content := content, timestamp := now }]
      updatedAt := now }

/-- `getHistory` (session-store.ts lines 48-55): the most recent
`maxMessages` messages (JS `slice(-maxMessages)`), projected to
role/content pairs. -/
def getHistory (session : Session) (maxMessages : Nat) : List (String × String) :=
  let recent :=
    if session.messages.length > maxMessages then
      session.messages.drop (session.messages.length - maxMessages)
    else
      session.messages
  recent.map (fun m => (m.role, m.content))

/-- `clearSession` (session-store.ts lines 60-63): drop all messages. -/
def clearSession (session : Session) (now : String) : Session :=
  { session with messages := [], updatedAt := now }

/-! ## Session persistence (session-store.ts lines 100-163)

`SessionManager.save` writes a JSONL file: one metadata line, then one
line per message.  `SessionManager.load` re-parses those lines.  A
parsed line is modelled by `SessionLine`; `JSON.parse ∘ JSON.stringify`
on well-formed records is the identity, so serialization is modelled at
the granularity of parsed lines, and a raw on-disk line that fails
`JSON.parse` is modelled as `Option.none` in the raw file. -/

/-- One successfully parsed line of a session JSONL file: either the
`_type: "metadata"` record or a message record. -/
inductive SessionLine where
  | metaLine (createdAt updatedAt : String) (metadata : List (String × String))
  | msgLine (m : SessionMessage)
  deriving Repr, DecidableEq

/-- `SessionManager.save` (lines 142-163): metadata line first, then the
messages in order. -/
def saveLines (session : Session) : List SessionLine :=
  SessionLine.metaLine session.createdAt session.updatedAt session.metadata
    :: session.messages.map SessionLine.msgLine

/-- Accumulator of the parse loop in `SessionManager.load`
(lines 111-124). -/
structure LoadAcc where
  messages : List SessionMessage
  metadata : List (String × String)
  createdAt : Option String
  deriving Repr, DecidableEq

/-- One iteration of the `for (const line of lines)` loop in
`SessionManager.load` (lines 115-124): a metadata line overwrites the
metadata and `createdAt` (a falsy/empty `createdAt` field stays `null`);
any other line is appended as a message. -/
def loadStep (acc : LoadAcc) (line : SessionLine) : LoadAcc :=
  match line with
  | SessionLine.metaLine c _ md =>
      { acc with metadata := md, createdAt := if c = "" then none else some c }
  | SessionLine.msgLine m =>
      { acc with messages := acc.messages ++ [m] }

/-- The session built by `SessionManager.load` (lines 126-132) from
successfully parsed lines: `createdAt || new Date()`, `updatedAt` is the
load instant. -/
def loadParsed (key now : String) (lines : List SessionLine) : Session :=
  let acc := lines.foldl loadStep { messages := [], metadata := [], createdAt := none }
  { key := key
    messages := acc.messages
    createdAt := acc.createdAt.getD now
    updatedAt := now
    metadata := acc.metadata }

/-- `SessionManager.load` (lines 100-137).  `file = none` models a
missing file (`existsSync` false); a `none` entry in the raw line list
models a line on which `JSON.parse` throws, which aborts the whole read
(the `try`/`catch` wraps the loop) and yields `null`. -/
def load (key now : String) (file : Option (List (Option SessionLine))) : Option Session :=
  match file with
  | none => none
  | some rawLines =>
      if rawLines.all Option.isSome then
        some (loadParsed key now (rawLines.filterMap id))
      else
        none

/-- `SessionManager.getOrCreate` (lines 84-95): the cached session when
present, otherwise `this.load(key) || createSession(key)`.  `cached`
models `this.cache.get(key)`. -/
def getOrCreate (cached : Option Session) (file : Option (List (Option SessionLine)))
    (key now : String) : Session :=
  match cached with
  | some s => s
  | none =>
      match load key now file with
      | some s => s
      | none => createSession key now

/-! ## Session file paths (paths.ts lines 96-103, session-store.ts lines 76-79, 196) -/

/-- JS `String.replace` with a single-character string pattern: replace
the first occurrence only. -/
def replaceFirstChar (c r : Char) : List Char → List Char
  | [] => []
  | x :: xs => if x = c then r :: xs else x :: replaceFirstChar c r xs

/-- JS `String.replace(new RegExp("\\c", "g"), "_")` for one character
class: replace every occurrence. -/
def replaceAllChar (c r : Char) (l : List Char) : List Char :=
  l.map (fun x => if x = c then r else x)

/-- JS `String.replace` with a multi-character string pattern: replace
the first occurrence of the pattern only. -/
def replaceFirstSeq (pat rep : List Char) : List Char → List Char
  | [] => []
  | x :: xs =>
      if pat.isPrefixOf (x :: xs) then rep ++ (x :: xs).drop pat.length
      else x :: replaceFirstSeq pat rep xs

/-- JS `String.trim`. -/
def jsTrim (l : List Char) : List Char :=
  ((l.dropWhile Char.isWhitespace).reverse.dropWhile Char.isWhitespace).reverse

/-- The characters `safeFilename` (paths.ts line 97) replaces. -/
def filenameBadChars : List Char := ['<', '>', ':', '"', '/', '\\', '|', '?', '*']

/-- `safeFilename` (paths.ts lines 96-103): globally replace each listed
character with `_`, then trim. -/
def safeFilename (name : List Char) : List Char :=
  jsTrim (filenameBadChars.foldl (fun acc c => replaceAllChar c '_' acc) name)

/-- The file name part of `SessionManager.getSessionPath`
(session-store.ts lines 76-79):
`safeFilename(key.replace(":", "_")) + ".jsonl"` — note the JS
`replace` rewrites only the first `:`. -/
def sessionFileName (key : String) : String :=
  String.mk (safeFilename (replaceFirstChar ':' '_' key.data)) ++ ".jsonl"

/-- `SessionManager.getSessionPath` (lines 76-79):
`join(this.sessionsDir, safeKey + ".jsonl")`. -/
def getSessionPath (sessionsDir key : String) : String :=
  sessionsDir ++ "/" ++ sessionFileName key

/-- The session key `SessionManager.listSessions` reconstructs from a
file name (session-store.ts line 196):
`file.replace(".jsonl", "").replace("_", ":")` — each `replace` rewrites
only the first occurrence. -/
def listSessionsKey (file : String) : String :=
  String.mk (replaceFirstSeq "_".data ":".data (replaceFirstSeq ".jsonl".data [] file.data))

/-! ## AIProvider.chat error recovery (ai-sdk-provider.ts lines 253-307) -/

/-- The successful result of the external `generateText` call: the text
(possibly empty), the steps with their tool calls, and usage. -/
structure GenResult where
  text : String
  steps : List (List ToolCallRequest)
  finishReason : String
  promptTokens : Nat
  completionTokens : Nat
  deriving Repr, DecidableEq

/-- `AIProvider.chat` (lines 253-307) given the outcome of the wrapped
`generateText` call.  On success: `content` is `result.text || null`
(empty string is falsy), tool calls are collected across steps in order.
On a thrown error: a plain response whose content is the error text and
whose tool-call list is empty — the error is not re-thrown. -/
def chat (gen : Except String GenResult) : LLMResponse :=
  match gen with
  | Except.ok r =>
      { content := if r.text = "" then none else some r.text
        toolCalls := r.steps.foldl (fun acc s => acc ++ s) []
        finishReason := r.finishReason
        usage := { promptTokens := r.promptTokens, completionTokens := r.completionTokens } }
  | Except.error e =>
      { content := some ("Error calling LLM: " ++ e)
        toolCalls := []
        finishReason := "error"
        usage := { promptTokens := 0, completionTokens := 0 } }

/-! ## MessageTool.execute (message.ts lines 64-89) -/

/-- The mutable state of a `MessageTool` instance: whether a send
callback is configured, and the context defaults. -/
structure MessageToolState where
  hasSendCallback : Bool
  defaultChannel : String
  defaultChatId : String
  defaultMetadata : List (String × String)
  deriving Repr, DecidableEq

/-- The validated arguments of the `message` tool: required content,
optional channel and chat id. -/
structure MessageParams where
  content : String
  channel : Option String
  chat_id : Option String
  deriving Repr, DecidableEq

/-- JS `params.x || default`: an absent or empty-string (falsy) value
falls back to the default. -/
def jsOrDefault (v : Option String) (d : String) : String :=
  match v with
  | some s => if s = "" then d else s
  | none => d

/-- `MessageTool.execute` (message.ts lines 64-89).  `sendResult` models
the outcome of awaiting `this.sendCallback(msg)`.  Every failure path
returns a textual result; nothing is thrown. -/
def messageToolExecute (st : MessageToolState) (p : MessageParams)
    (sendResult : Except String Unit) : String :=
  let channel := jsOrDefault p.channel st.defaultChannel
  let chatId := jsOrDefault p.chat_id st.defaultChatId
  if channel = "" || chatId = "" then
    "Error: No target channel/chat specified"
  else if !st.hasSendCallback then
    "Error: Message sending not configured"
  else
    match sendResult with
    | Except.ok _ => "Message sent to " ++ channel ++ ":" ++ chatId
    | Except.error e => "Error sending message: " ++ e

/-! ## Agent loop (agent-loop.ts lines 148-366)

The external collaborators are abstracted as `AgentEnv` fields: the
model call (`provider.chat` with the registered tool definitions and the
configured model), the tool dispatcher (`tools.execute`), and the
context builder (`context.buildMessages`).  The `SessionManager` view of
the agent is modelled as a total map `String → Session`: `store key` is
the session `getOrCreate(key)` resolves (cache-backed, see `getOrCreate`
above), and `save` updates it (`updateStore`). -/

/-- One element of the model-facing message list (`CoreMessage`). -/
inductive CorePart where
  | text (t : String)
  | toolCall (id name : String) (args : List (String × String))
  | toolResult (id name result : String)
  deriving Repr, DecidableEq

/-- A model-facing message: role plus content parts. -/
structure CoreMessage where
  role : String
  parts : List CorePart
  deriving Repr, DecidableEq

/-- The agent loop's external collaborators and configuration. -/
structure AgentEnv where
  model : List CoreMessage → LLMResponse
  toolExec : String → List (String × String) → String
  buildMessages : List (String × String) → String → List String → List CoreMessage
  maxIterations : Nat

/-- Modelled from the spec: `getSessionKey` lives in
`src/infrastructure/queue/events.ts`, which is not among the provided
sources.  Spec §4.4 step 1: "Resolve session key from the inbound
message (`channel:chatId` ...)"; glossary: "Session key: the stable
identifier (`channel:chatId`)". -/
def getSessionKey (msg : InboundMessage) : String :=
  msg.channel ++ ":" ++ msg.chatId

/-- Modelled from the spec: `createOutboundMessage` lives in
`src/infrastructure/queue/events.ts`, which is not among the provided
sources.  Spec §3: "OutboundMessage: {channel, chatId, content, media
(default empty), metadata (default empty)}"; the identical local helper
in `src/tools/message.ts` lines 14-22 confirms the defaults.  Call
sites below pass `[]` where the source omits the field. -/
def createOutboundMessage (channel chatId content : String)
    (media : List String) (metadata : List (String × String)) : OutboundMessage :=
  { channel := channel, chatId := chatId, content := content
    media := media, metadata := metadata }

/-- The fallback answer substituted by `processMessage`
(agent-loop.ts line 232) when the iteration loop ends with no final
content. -/
def fallbackMessage : String := "I've completed processing but have no response to give."

/-- The fallback answer substituted by `processSystemMessage`
(agent-loop.ts line 335). -/
def systemFallbackMessage : String := "Background task completed."

/-- The `while (iteration < this.maxIterations)` loop shared by
`processMessage` (lines 179-229) and `processSystemMessage`
(lines 287-332), with `fuel` the remaining iterations.  Each pass calls
the model once; a response with tool calls appends the assistant message
(text part, when `content` is non-null, followed by the tool-call parts)
and then, for each requested call in order, one tool-role result
message; a response without tool calls ends the loop with that content.
Returns the number of model calls made and the final content (`none`
when the loop ended by exhausting the cap, or the final response's
content was `null`). -/
def agentIterate (model : List CoreMessage → LLMResponse)
    (toolExec : String → List (String × String) → String) :
    Nat → List CoreMessage → Nat → Nat × Option String
  | 0, _, calls => (calls, none)
  | fuel + 1, messages, calls =>
      let response := model messages
      if hasToolCalls response then
        let assistantMsg : CoreMessage :=
          { role := "assistant"
            parts :=
              (match response.content with
               | some t => [CorePart.text t]
               | none => [])
                ++ response.toolCalls.map (fun tc => CorePart.toolCall tc.id tc.name tc.arguments) }
        let afterTools :=
          response.toolCalls.foldl
            (fun msgs tc =>
              msgs ++ [{ role := "tool"
                         parts := [CorePart.toolResult tc.id tc.name (toolExec tc.name tc.arguments)] }])
            (messages ++ [assistantMsg])
        agentIterate model toolExec fuel afterTools (calls + 1)
      else
        (calls + 1, response.content)

/-- The body of `processMessage` after session resolution
(agent-loop.ts lines 171-238): build the context, run the bounded loop,
substitute the fallback, append the user and assistant entries, and
return the saved session, the final content, and the model-call
count. -/
def runTurn (env : AgentEnv) (session : Session) (msg : InboundMessage) (now : String) :
    Session × String × Nat :=
  let r := agentIterate env.model env.toolExec env.maxIterations
      (env.buildMessages (getHistory session 50) msg.content msg.media) 0
  (addMessage (addMessage session "user" msg.content now) "assistant"
      (r.2.getD fallbackMessage) now,
   r.2.getD fallbackMessage, r.1)

/-- The body of `processSystemMessage` after origin resolution
(agent-loop.ts lines 279-341): same loop with no media, the system
fallback, and the user entry tagged `[System: senderId]`. -/
def runSystemTurn (env : AgentEnv) (session : Session) (msg : InboundMessage) (now : String) :
    Session × String × Nat :=
  let r := agentIterate env.model env.toolExec env.maxIterations
      (env.buildMessages (getHistory session 50) msg.content []) 0
  (addMessage
      (addMessage session "user" ("[System: " ++ msg.senderId ++ "] " ++ msg.content) now)
      "assistant" (r.2.getD systemFallbackMessage) now,
   r.2.getD systemFallbackMessage, r.1)

/-- `cache.set` / `save` over the agent's session-store view. -/
def updateStore (store : String → Session) (key : String) (s : Session) : String → Session :=
  fun k => if k = key then s else store k

/-- Origin parsing in `processSystemMessage` (agent-loop.ts
lines 254-262): default origin is `("cli", chatId)`; when the chat id
contains `:` it is split — JS `split(":", 2)` returns the first two
segments and discards the rest. -/
def parseOrigin (chatId : String) : String × String :=
  if chatId.data.contains ':' then
    let parts := splitChar ':' chatId.data
    (String.mk (parts.headD []), String.mk ((parts.drop 1).headD []))
  else
    ("cli", chatId)
where
  /-- JS `String.split` on a single-character separator (all segments;
  the caller keeps the first two). -/
  splitChar (sep : Char) : List Char → List (List Char)
    | [] => [[]]
    | c :: cs =>
        if c = sep then [] :: splitChar sep cs
        else
          match splitChar sep cs with
          | [] => [[c]]
          | r :: rs => (c :: r) :: rs

/-- The session key `processSystemMessage` resolves and uses
(agent-loop.ts line 265): `` `${originChannel}:${originChatId}` ``. -/
def resolvedOriginSessionKey (chatId : String) : String :=
  (parseOrigin chatId).1 ++ ":" ++ (parseOrigin chatId).2

/-- `processSystemMessage` (agent-loop.ts lines 251-348): resolve the
origin session, run the loop, persist the two appended entries, and
address the outbound message to the origin — with no metadata argument,
so the outbound metadata is the default empty map. -/
def processSystemMessageCore (env : AgentEnv) (store : String → Session)
    (msg : InboundMessage) (now : String) : (String → Session) × OutboundMessage × Nat :=
  let origin := parseOrigin msg.chatId
  let t := runSystemTurn env (store (resolvedOriginSessionKey msg.chatId)) msg now
  (updateStore store (resolvedOriginSessionKey msg.chatId) t.1,
   createOutboundMessage origin.1 origin.2 t.2.1 [] [],
   t.2.2)

/-- `processMessage` (agent-loop.ts lines 148-246): system-channel
messages are delegated to `processSystemMessage`; otherwise the session
for `getSessionKey msg` is resolved, the turn is run, the session is
saved, and the single outbound reply carries the inbound channel, chat
id and metadata. -/
def processMessageCore (env : AgentEnv) (store : String → Session)
    (msg : InboundMessage) (now : String) : (String → Session) × OutboundMessage × Nat :=
  if msg.channel = "system" then
    processSystemMessageCore env store msg now
  else
    let t := runTurn env (store (getSessionKey msg)) msg now
    (updateStore store (getSessionKey msg) t.1,
     createOutboundMessage msg.channel msg.chatId t.2.1 [] msg.metadata,
     t.2.2)

/-- Sequential processing of a list of inbound messages, one at a time
(the `run` loop, agent-loop.ts lines 111-134, consumes and processes
messages strictly in order). -/
def processAll (env : AgentEnv) (store : String → Session)
    (msgs : List InboundMessage) (now : String) : String → Session :=
  msgs.foldl (fun st m => (processMessageCore env st m now).1) store

/-- The inbound message `processDirect` constructs (agent-loop.ts
lines 354-362): channel `cli`, chat id `direct`, regardless of the
`sessionKey` parameter. -/
def directInbound (content : String) : InboundMessage :=
  { channel := "cli", senderId := "user", chatId := "direct", content := content
    media := [], metadata := [] }

/-- `processDirect` (agent-loop.ts lines 353-366): process the
constructed message and return its content.  The `sessionKey` parameter
is accepted and ignored, exactly as in the source. -/
def processDirect (env : AgentEnv) (store : String → Session)
    (content sessionKey now : String) : (String → Session) × String × Nat :=
  let r := processMessageCore env store (directInbound content) now
  (r.1, r.2.1.content, r.2.2)

/-- The appended transcript entries of a run of turns: per inbound
message, one user entry with the original content followed by one
assistant entry with that turn's final answer. -/
def turnEntries (msgs : List InboundMessage) (finals : List String) (now : String) :
    List SessionMessage :=
  (msgs.zip finals).flatMap
    (fun p => [{ role := "user", content := p.1.content, timestamp := now },
               { role := "assistant", content := p.2, timestamp := now }])

/-- A property of strings produced by recovered failures: the text
begins with `Error`. -/
def isErrorString (s : String) : Prop := ∃ rest, s = "Error" ++ rest

/-! ## Concrete sample values used by witnesses and counterexamples -/

/-- A model oracle that always requests one tool call — the scenario in
which the iteration cap is necessarily reached. -/
def sampleEnv : AgentEnv :=
  { model := fun _ =>
      { content := some "working"
        toolCalls := [{ id := "1", name := "exec", arguments := [] }]
        finishReason := "tool-calls"
        usage := { promptTokens := 0, completionTokens := 0 } }
    toolExec := fun _ _ => "ok"
    buildMessages := fun _ _ _ => []
    maxIterations := 1 }

/-- A model oracle that immediately answers with plain text. -/
def sampleAnswerEnv : AgentEnv :=
  { model := fun _ =>
      { content := some "hello"
        toolCalls := []
        finishReason := "stop"
        usage := { promptTokens := 0, completionTokens := 0 } }
    toolExec := fun _ _ => "ok"
    buildMessages := fun _ _ _ => []
    maxIterations := 20 }

/-- A store in which every session is fresh. -/
def sampleStore : String → Session := fun k => createSession k "t0"

/-- A system-channel inbound message (a subagent announce) carrying
non-empty metadata, with origin `telegram:42`. -/
def sampleSystemMsg : InboundMessage :=
  { channel := "system", senderId := "subagent", chatId := "telegram:42"
    content := "done", media := [], metadata := [("message_id", "7")] }

/-- An ordinary telegram inbound message. -/
def sampleUserMsg : InboundMessage :=
  { channel := "telegram", senderId := "u1", chatId := "42"
    content := "hi", media := [], metadata := [("message_id", "3")] }

/-- A second ordinary telegram inbound message on the same chat. -/
def sampleUserMsg2 : InboundMessage :=
  { channel := "telegram", senderId := "u1", chatId := "42"
    content := "again", media := [], metadata := [] }

/-- A session holding one message, for the append-only counterexample. -/
def sampleSession : Session :=
  { key := "telegram:42"
    messages := [{ role := "user", content := "hi", timestamp := "t0" }]
    createdAt := "t0", updatedAt := "t0"
    metadata := [("lang", "en")] }

/-! ## Helper lemmas -/

/-- Folding the parse loop over message lines appends those messages in
order and changes nothing else. -/
theorem foldl_loadStep_msgLines (msgs : List SessionMessage) :
    ∀ acc : LoadAcc,
      (msgs.map SessionLine.msgLine).foldl loadStep acc
        = { acc with messages := acc.messages ++ msgs } := by
  induction msgs with
  | nil => intro acc; simp
  | cons m ms ih =>
      intro acc
      simp only [List.map_cons, List.foldl_cons, loadStep, ih]
      simp

/-! ## Claim C5 — save/load round trip -/

/-- Claim C5: serializing a session with `SessionManager.save` and
deserializing the written record with `SessionManager.load` by the same
key yields a session with an identical ordered message sequence and an
identical metadata map. -/
theorem c5_save_load_roundtrip (s : Session) (now : String) :
    ∃ s' : Session,
      load s.key now (some ((saveLines s).map some)) = some s'
        ∧ s'.key = s.key
        ∧ s'.messages = s.messages
        ∧ s'.metadata = s.metadata := by
  refine ⟨loadParsed s.key now (saveLines s), ?_, rfl, ?_, ?_⟩
  · simp [load]
  · simp [loadParsed, saveLines, List.foldl_cons, loadStep, foldl_loadStep_msgLines]
  · simp [loadParsed, saveLines, List.foldl_cons, loadStep, foldl_loadStep_msgLines]

/-! ## Claim C6 — getOrCreate fallback behavior -/

/-- Claim C6: `getOrCreate` returns the cached session when one is
cached; otherwise the session loaded from disk when a readable record
exists; otherwise (no file, or a file with an unparseable line) a fresh
empty session — a corrupt or unreadable record never surfaces as a
failure. -/
theorem c6_getOrCreate_fallback (key now : String) :
    (∀ (s : Session) (file : Option (List (Option SessionLine))),
        getOrCreate (some s) file key now = s)
      ∧ (∀ lines : List (Option SessionLine), lines.all Option.isSome = true →
          getOrCreate none (some lines) key now = loadParsed key now (lines.filterMap id))
      ∧ getOrCreate none none key now = createSession key now
      ∧ (∀ lines : List (Option SessionLine), lines.all Option.isSome = false →
          getOrCreate none (some lines) key now = createSession key now) := by
  refine ⟨fun s file => rfl, fun lines h => ?_, rfl, fun lines h => ?_⟩
  · simp [getOrCreate, load, h]
  · simp [getOrCreate, load, h]

/-- Witness for C6 at concrete inputs: a cached session is returned
as-is, and a file whose single line is corrupt falls back to a fresh
session. -/
theorem c6_getOrCreate_fallback_witness :
    getOrCreate (some sampleSession) none "telegram:42" "t1" = sampleSession
      ∧ getOrCreate none (some [none]) "telegram:42" "t1" = createSession "telegram:42" "t1" :=
  ⟨(c6_getOrCreate_fallback "telegram:42" "t1").1 sampleSession none,
   (c6_getOrCreate_fallback "telegram:42" "t1").2.2.2 [none] rfl⟩

/-! ## Claim C7 — external failures become textual results -/

/-- Claim C7: a failed model call is converted by `AIProvider.chat` into
an `LLMResponse` whose content is an error string and whose tool-call
list is empty, and a failed send in `MessageTool.execute` (as well as a
missing target or missing callback) yields a string beginning with
`Error`; neither failure propagates as a thrown exception — both
functions are total and return these values. -/
theorem c7_failures_textual (e : String) (st : MessageToolState) (p : MessageParams)
    (sendErr : String) :
    (chat (Except.error e)).toolCalls = []
      ∧ (chat (Except.error e)).content = some ("Error calling LLM: " ++ e)
      ∧ isErrorString (messageToolExecute st p (Except.error sendErr)) := by
  refine ⟨rfl, rfl, ?_⟩
  unfold messageToolExecute
  dsimp only
  split
  · exact ⟨": No target channel/chat specified", rfl⟩
  · split
    · exact ⟨": Message sending not configured", rfl⟩
    · exact ⟨" sending message: " ++ sendErr, by rw [← String.append_assoc]; rfl⟩

/-! ## Claim C8 — append-only sessions -/

/-- Counterexample to claim C8 as stated: `clearSession` is an operation
on a `Session` after which the prior message sequence (here one entry)
is not a prefix of the new sequence. -/
theorem c8_clearSession_counterexample :
    ¬ sampleSession.messages <+: (clearSession sampleSession "t1").messages := by
  intro h
  obtain ⟨t, ht⟩ := h
  simp [sampleSession, clearSession] at ht

/-- Claim C8 as amended: `addMessage` preserves the append-only
invariant — the prior message sequence is a prefix of the new one, in
the same order — while `clearSession` resets the sequence to empty. -/
theorem c8_addMessage_append_only (s : Session) (role content now : String) :
    s.messages <+: (addMessage s role content now).messages
      ∧ (clearSession s now).messages = [] :=
  ⟨⟨[{ role := role, content := content, timestamp := now }], rfl⟩, rfl⟩

/-! ## Claim C9 — session key to file path is not injective -/

/-- Claim C9: the mapping from session key to on-disk file path is not
injective: the distinct keys `"a:b_c"` and `"a_b:c"` map to the same
path, and `listSessions`' reconstruction (replace the first underscore
of the file name with `:`) recovers `"a:b_c"` for that shared file name,
so the key `"a_b:c"` cannot be recovered. -/
theorem c9_session_path_collision (sessionsDir : String) :
    ("a:b_c" : String) ≠ "a_b:c"
      ∧ sessionFileName "a:b_c" = sessionFileName "a_b:c"
      ∧ getSessionPath sessionsDir "a:b_c" = getSessionPath sessionsDir "a_b:c"
      ∧ listSessionsKey (sessionFileName "a:b_c") = "a:b_c"
      ∧ listSessionsKey (sessionFileName "a_b:c") ≠ "a_b:c" := by
  refine ⟨by decide, by decide, ?_, by decide, by decide⟩
  show sessionsDir ++ "/" ++ sessionFileName "a:b_c" = sessionsDir ++ "/" ++ sessionFileName "a_b:c"
  norm_num [show sessionFileName "a:b_c" = sessionFileName "a_b:c" from by decide]

/-! ## Agent-loop helper lemmas -/

/-- Each pass of the iteration loop makes one model call, so the call
count is bounded by the remaining fuel. -/
theorem agentIterate_calls_le (model : List CoreMessage → LLMResponse)
    (toolExec : String → List (String × String) → String) :
    ∀ (fuel : Nat) (messages : List CoreMessage) (calls : Nat),
      (agentIterate model toolExec fuel messages calls).1 ≤ calls + fuel := by
  intro fuel
  induction fuel with
  | zero => intro messages calls; simp [agentIterate]
  | succ n ih =>
      intro messages calls
      rw [agentIterate]
      dsimp only
      split
      · calc (agentIterate model toolExec n _ (calls + 1)).1
            ≤ (calls + 1) + n := ih _ _
          _ = calls + (n + 1) := by omega
      · simp

/-- When every model response contains tool calls, the loop exhausts its
fuel and ends with no final content. -/
theorem agentIterate_all_tools (model : List CoreMessage → LLMResponse)
    (toolExec : String → List (String × String) → String)
    (h : ∀ ms, hasToolCalls (model ms) = true) :
    ∀ (fuel : Nat) (messages : List CoreMessage) (calls : Nat),
      agentIterate model toolExec fuel messages calls = (calls + fuel, none) := by
  intro fuel
  induction fuel with
  | zero => intro messages calls; simp [agentIterate]
  | succ n ih =>
      intro messages calls
      rw [agentIterate]
      dsimp only
      rw [if_pos (h messages), ih]
      simp; omega

/-- `runTurn` appends exactly the user entry (original content) followed
by the assistant entry (the final answer it also returns). -/
theorem runTurn_messages (env : AgentEnv) (session : Session) (msg : InboundMessage)
    (now : String) :
    ((runTurn env session msg now).1).messages
      = session.messages
        ++ [{ role := "user", content := msg.content, timestamp := now },
            { role := "assistant", content := (runTurn env session msg now).2.1, timestamp := now }] := by
  simp [runTurn, addMessage]

/-- `runSystemTurn` appends exactly the tagged user entry followed by
the assistant entry. -/
theorem runSystemTurn_messages (env : AgentEnv) (session : Session) (msg : InboundMessage)
    (now : String) :
    ((runSystemTurn env session msg now).1).messages
      = session.messages
        ++ [{ role := "user", content := "[System: " ++ msg.senderId ++ "] " ++ msg.content,
              timestamp := now },
            { role := "assistant", content := (runSystemTurn env session msg now).2.1,
              timestamp := now }] := by
  simp [runSystemTurn, addMessage]

/-- On a non-system message, `processMessageCore` saves exactly the
session produced by `runTurn` under the resolved session key. -/
theorem processMessageCore_store_nonsystem (env : AgentEnv) (store : String → Session)
    (msg : InboundMessage) (now : String) (h : ¬ msg.channel = "system") :
    (processMessageCore env store msg now).1
      = updateStore store (getSessionKey msg)
          (runTurn env (store (getSessionKey msg)) msg now).1 := by
  simp [processMessageCore, h]

/-- On a system message, `processMessageCore` saves exactly the session
produced by `runSystemTurn` under the resolved origin session key. -/
theorem processMessageCore_store_system (env : AgentEnv) (store : String → Session)
    (msg : InboundMessage) (now : String) (h : msg.channel = "system") :
    (processMessageCore env store msg now).1
      = updateStore store (resolvedOriginSessionKey msg.chatId)
          (runSystemTurn env (store (resolvedOriginSessionKey msg.chatId)) msg now).1 := by
  simp [processMessageCore, h, processSystemMessageCore]

/-! ## Claim C1 — each turn appends one user and one assistant entry -/

/-- Claim C1: for every sequence of non-system inbound messages on the
same session key, processed one at a time, the persisted session's
message sequence equals the pre-existing sequence followed by, per turn
in arrival order, one user entry holding the original inbound content
and one assistant entry holding that turn's final answer — so its
length is the pre-existing length + 2N. -/
theorem c1_turns_append_two_entries (env : AgentEnv) :
    ∀ (msgs : List InboundMessage) (store : String → Session) (k now : String),
      (∀ m ∈ msgs, m.channel ≠ "system" ∧ getSessionKey m = k) →
      ∃ finals : List String,
        finals.length = msgs.length
          ∧ (processAll env store msgs now k).messages
              = (store k).messages ++ turnEntries msgs finals now
          ∧ (processAll env store msgs now k).messages.length
              = (store k).messages.length + 2 * msgs.length := by
  intro msgs
  induction msgs with
  | nil =>
      intro store k now _
      exact ⟨[], rfl, by simp [processAll, turnEntries], by simp [processAll]⟩
  | cons m ms ih =>
      intro store k now h
      obtain ⟨hm, hkey⟩ := h m (List.mem_cons_self m ms)
      have hstep : processAll env store (m :: ms) now
          = processAll env (processMessageCore env store m now).1 ms now := rfl
      obtain ⟨finals, hlen, hmsgs, hcount⟩ :=
        ih (processMessageCore env store m now).1 k now
          (fun m' hm' => h m' (List.mem_cons_of_mem m hm'))
      have hk : ((processMessageCore env store m now).1 k).messages
          = (store k).messages
            ++ [{ role := "user", content := m.content, timestamp := now },
                { role := "assistant", content := (runTurn env (store k) m now).2.1,
                  timestamp := now }] := by
        rw [processMessageCore_store_nonsystem env store m now hm, hkey]
        simp [updateStore, runTurn_messages]
      refine ⟨(runTurn env (store k) m now).2.1 :: finals, by simp [hlen], ?_, ?_⟩
      · rw [hstep, hmsgs, hk]
        simp [turnEntries, List.append_assoc]
      · rw [hstep, hcount, hk]
        simp
        omega

/-- Witness for C1: two concrete telegram messages on session key
`telegram:42`, starting from a fresh store, produce a transcript of
exactly four entries in arrival order. -/
theorem c1_turns_append_two_entries_witness :
    (∀ m ∈ [sampleUserMsg, sampleUserMsg2],
        m.channel ≠ "system" ∧ getSessionKey m = "telegram:42")
      ∧ ∃ finals : List String,
          finals.length = 2
            ∧ (processAll sampleAnswerEnv sampleStore [sampleUserMsg, sampleUserMsg2] "t1"
                  "telegram:42").messages
                = (sampleStore "telegram:42").messages
                  ++ turnEntries [sampleUserMsg, sampleUserMsg2] finals "t1"
            ∧ (processAll sampleAnswerEnv sampleStore [sampleUserMsg, sampleUserMsg2] "t1"
                  "telegram:42").messages.length
                = (sampleStore "telegram:42").messages.length + 2 * 2 :=
  ⟨by decide,
   c1_turns_append_two_entries sampleAnswerEnv [sampleUserMsg, sampleUserMsg2]
     sampleStore "telegram:42" "t1" (by decide)⟩

/-! ## Claim C2 — bounded model calls and the iteration-cap fallback -/

/-- Counterexample to claim C2 as stated: a system-channel inbound
message whose turn exhausts the iteration cap (the model always requests
tool calls and `maxIterations = 1`) is emitted with content
`"Background task completed."`, not the claimed fallback string — and
the cap was indeed reached: the turn made exactly `maxIterations` model
calls. -/
theorem c2_system_fallback_counterexample :
    (processMessageCore sampleEnv sampleStore sampleSystemMsg "t1").2.2
        = sampleEnv.maxIterations
      ∧ (processMessageCore sampleEnv sampleStore sampleSystemMsg "t1").2.1.content
          = "Background task completed."
      ∧ (processMessageCore sampleEnv sampleStore sampleSystemMsg "t1").2.1.content
          ≠ "I've completed processing but have no response to give." := by
  refine ⟨?_, ?_, ?_⟩ <;> decide

/-- Claim C2 as amended: `processMessage` issues at most
`maxToolIterations` model calls per inbound message; when the iteration
cap is reached without the model having returned a response free of tool
calls, the turn completes with the fixed fallback content — which is
`"I've completed processing but have no response to give."` for ordinary
messages and `"Background task completed."` for system-channel
messages. -/
theorem c2_call_bound_and_fallback (env : AgentEnv) (store : String → Session)
    (msg : InboundMessage) (now : String) :
    (processMessageCore env store msg now).2.2 ≤ env.maxIterations
      ∧ ((∀ ms, hasToolCalls (env.model ms) = true) →
          (processMessageCore env store msg now).2.1.content
            = if msg.channel = "system" then systemFallbackMessage else fallbackMessage) := by
  constructor
  · by_cases h : msg.channel = "system"
    · simpa [processMessageCore, h, processSystemMessageCore, runSystemTurn] using
        agentIterate_calls_le env.model env.toolExec env.maxIterations _ 0
    · simpa [processMessageCore, h, runTurn] using
        agentIterate_calls_le env.model env.toolExec env.maxIterations _ 0
  · intro hall
    by_cases h : msg.channel = "system"
    · simp [processMessageCore, h, processSystemMessageCore, runSystemTurn,
        createOutboundMessage, agentIterate_all_tools env.model env.toolExec hall]
    · simp [processMessageCore, h, runTurn,
        createOutboundMessage, agentIterate_all_tools env.model env.toolExec hall]

/-- Witness for C2 at a concrete input: an always-tool-calling model on
an ordinary telegram message makes no more than one model call
(`maxIterations = 1`) and the turn completes with the fixed fallback. -/
theorem c2_call_bound_and_fallback_witness :
    (processMessageCore sampleEnv sampleStore sampleUserMsg "t1").2.2
        ≤ sampleEnv.maxIterations
      ∧ (processMessageCore sampleEnv sampleStore sampleUserMsg "t1").2.1.content
          = if sampleUserMsg.channel = "system" then systemFallbackMessage
            else fallbackMessage :=
  ⟨(c2_call_bound_and_fallback sampleEnv sampleStore sampleUserMsg "t1").1,
   (c2_call_bound_and_fallback sampleEnv sampleStore sampleUserMsg "t1").2 (fun _ => rfl)⟩

/-! ## Claim C3 — the single outbound reply and its addressing -/

/-- Counterexample to claim C3 as stated: for a system-channel inbound
message carrying non-empty metadata, the emitted outbound message
carries the default empty metadata, not the inbound metadata. -/
theorem c3_system_metadata_counterexample :
    (processMessageCore sampleEnv sampleStore sampleSystemMsg "t1").2.1.metadata = []
      ∧ sampleSystemMsg.metadata = [("message_id", "7")]
      ∧ (processMessageCore sampleEnv sampleStore sampleSystemMsg "t1").2.1.metadata
          ≠ sampleSystemMsg.metadata := by
  refine ⟨?_, ?_, ?_⟩ <;> decide

/-- Claim C3 as amended: `processMessage` emits exactly one
`OutboundMessage` per inbound message; its channel and chat id equal the
inbound message's (for system-channel messages, the parsed origin
channel and origin chat id), and its metadata equals the inbound
metadata for ordinary messages, while system-channel messages are
emitted with empty metadata. -/
theorem c3_single_reply_addressing (env : AgentEnv) (store : String → Session)
    (msg : InboundMessage) (now : String) :
    (¬ msg.channel = "system" →
        (processMessageCore env store msg now).2.1.channel = msg.channel
          ∧ (processMessageCore env store msg now).2.1.chatId = msg.chatId
          ∧ (processMessageCore env store msg now).2.1.metadata = msg.metadata)
      ∧ (msg.channel = "system" →
          (processMessageCore env store msg now).2.1.channel = (parseOrigin msg.chatId).1
            ∧ (processMessageCore env store msg now).2.1.chatId = (parseOrigin msg.chatId).2
            ∧ (processMessageCore env store msg now).2.1.metadata = []) := by
  constructor
  · intro h
    refine ⟨?_, ?_, ?_⟩ <;> simp [processMessageCore, h, createOutboundMessage]
  · intro h
    refine ⟨?_, ?_, ?_⟩ <;>
      simp [processMessageCore, h, processSystemMessageCore, createOutboundMessage]

/-- Witness for C3 at a concrete input: the reply to an ordinary
telegram message is addressed to its channel and chat, carrying its
metadata. -/
theorem c3_single_reply_addressing_witness :
    (processMessageCore sampleAnswerEnv sampleStore sampleUserMsg "t1").2.1.channel
        = sampleUserMsg.channel
      ∧ (processMessageCore sampleAnswerEnv sampleStore sampleUserMsg "t1").2.1.chatId
          = sampleUserMsg.chatId
      ∧ (processMessageCore sampleAnswerEnv sampleStore sampleUserMsg "t1").2.1.metadata
          = sampleUserMsg.metadata :=
  (c3_single_reply_addressing sampleAnswerEnv sampleStore sampleUserMsg "t1").1 (by decide)

/-! ## Claim C4 — origin parsing in processSystemMessage -/

/-- Splitting a list free of the separator yields that list as the only
segment. -/
theorem splitChar_no_sep (sep : Char) :
    ∀ l : List Char, sep ∉ l → parseOrigin.splitChar sep l = [l] := by
  intro l
  induction l with
  | nil => intro _; rfl
  | cons c cs ih =>
      intro h
      rw [parseOrigin.splitChar]
      rw [if_neg (show ¬ c = sep from fun hc => h (by rw [← hc]; exact List.mem_cons_self c cs))]
      rw [ih (fun hm => h (List.mem_cons_of_mem c hm))]

/-- Splitting `l1 ++ sep :: l2` where `l1` is free of the separator
yields `l1` as the first segment followed by the segments of `l2`. -/
theorem splitChar_sep_append (sep : Char) :
    ∀ l1 l2 : List Char, sep ∉ l1 →
      parseOrigin.splitChar sep (l1 ++ sep :: l2)
        = l1 :: parseOrigin.splitChar sep l2 := by
  intro l1
  induction l1 with
  | nil =>
      intro l2 _
      rw [List.nil_append, parseOrigin.splitChar, if_pos rfl]
  | cons c cs ih =>
      intro l2 h
      rw [List.cons_append, parseOrigin.splitChar]
      rw [if_neg (show ¬ c = sep from fun hc => h (by rw [← hc]; exact List.mem_cons_self c cs))]
      rw [ih l2 (fun hm => h (List.mem_cons_of_mem c hm))]

/-- The origin parse of a chat id embedding `originChannel:originChatId`
recovers both components, provided neither contains `:`. -/
theorem parseOrigin_embedded (oc oid : String) (h1 : ':' ∉ oc.data) (h2 : ':' ∉ oid.data) :
    parseOrigin (oc ++ ":" ++ oid) = (oc, oid) := by
  have hdata : (oc ++ ":" ++ oid).data = oc.data ++ ':' :: oid.data := by
    rw [String.data_append, String.data_append,
      show (":" : String).data = [':'] from rfl]
    simp
  have hsplit : parseOrigin.splitChar ':' (oc ++ ":" ++ oid).data
      = oc.data :: [oid.data] := by
    rw [hdata, splitChar_sep_append ':' oc.data oid.data h1,
      splitChar_no_sep ':' oid.data h2]
  unfold parseOrigin
  rw [if_pos (show ((oc ++ ":" ++ oid).data.contains ':') = true by rw [hdata]; simp)]
  dsimp only
  rw [hsplit]
  rfl

/-- Counterexample to claim C4 as stated: when the origin chat id itself
contains `:` (here origin `a` with chat id `b:c`), the resolved session
key is `a:b` — JS `split(":", 2)` discards everything after the second
segment — not the claimed `a:b:c`. -/
theorem c4_colon_chatid_counterexample :
    resolvedOriginSessionKey ("a" ++ ":" ++ "b:c") = "a:b"
      ∧ resolvedOriginSessionKey ("a" ++ ":" ++ "b:c") ≠ "a" ++ ":" ++ "b:c" := by
  refine ⟨?_, ?_⟩ <;> decide

/-- Claim C4 as amended: for a system-channel message whose chat id
embeds an origin as `originChannel:originChatId`, where neither
component contains `:`, `processSystemMessage` resolves the session key
`originChannel:originChatId` and uses it for history and persistence:
only that key's session changes, and it gains exactly the turn's two
entries.  In particular a system message with chat id `telegram:42`
resolves to session key `telegram:42`. -/
theorem c4_origin_session_key (oc oid : String) (h1 : ':' ∉ oc.data) (h2 : ':' ∉ oid.data) :
    parseOrigin (oc ++ ":" ++ oid) = (oc, oid)
      ∧ resolvedOriginSessionKey (oc ++ ":" ++ oid) = oc ++ ":" ++ oid
      ∧ ∀ (env : AgentEnv) (store : String → Session) (msg : InboundMessage) (now : String),
          msg.channel = "system" → msg.chatId = oc ++ ":" ++ oid →
          (∀ k, k ≠ oc ++ ":" ++ oid →
              (processMessageCore env store msg now).1 k = store k)
            ∧ ((processMessageCore env store msg now).1 (oc ++ ":" ++ oid)).messages.length
                = (store (oc ++ ":" ++ oid)).messages.length + 2 := by
  have hp := parseOrigin_embedded oc oid h1 h2
  have hres : resolvedOriginSessionKey (oc ++ ":" ++ oid) = oc ++ ":" ++ oid := by
    rw [resolvedOriginSessionKey, hp]
  refine ⟨hp, hres, ?_⟩
  intro env store msg now hch hchat
  have hstore := processMessageCore_store_system env store msg now hch
  rw [hchat, hres] at hstore
  constructor
  · intro k hk
    rw [hstore]
    simp [updateStore, hk]
  · rw [hstore]
    simp [updateStore, runSystemTurn_messages]

/-- Witness for C4 at the concrete origin `telegram:42`: the resolved
session key is `telegram:42`, and processing the sample subagent
announce appends exactly two entries to that session. -/
theorem c4_origin_session_key_witness :
    (':' ∉ ("telegram" : String).data) ∧ (':' ∉ ("42" : String).data)
      ∧ resolvedOriginSessionKey ("telegram" ++ ":" ++ "42") = "telegram" ++ ":" ++ "42"
      ∧ ((processMessageCore sampleEnv sampleStore sampleSystemMsg "t1").1
            ("telegram" ++ ":" ++ "42")).messages.length
          = (sampleStore ("telegram" ++ ":" ++ "42")).messages.length + 2 :=
  ⟨by decide, by decide,
   (c4_origin_session_key "telegram" "42" (by decide) (by decide)).2.1,
   ((c4_origin_session_key "telegram" "42" (by decide) (by decide)).2.2 sampleEnv
       sampleStore sampleSystemMsg "t1" rfl rfl).2⟩

/-! ## Claim C10 — processDirect ignores its sessionKey parameter -/

/-- Claim C10: for every content string and every `sessionKey` argument,
`processDirect` constructs an inbound message with channel `cli` and
chat id `direct`, so it always resolves and persists against the single
session key `cli:direct` and its result does not depend on the
`sessionKey` parameter at all. -/
theorem c10_processDirect_fixed_session (env : AgentEnv) (store : String → Session)
    (content key1 key2 now : String) :
    processDirect env store content key1 now = processDirect env store content key2 now
      ∧ (directInbound content).channel = "cli"
      ∧ (directInbound content).chatId = "direct"
      ∧ getSessionKey (directInbound content) = "cli:direct"
      ∧ (∀ k, k ≠ "cli:direct" → (processDirect env store content key1 now).1 k = store k) := by
  refine ⟨rfl, rfl, rfl, rfl, ?_⟩
  intro k hk
  show (processMessageCore env store (directInbound content) now).1 k = store k
  rw [processMessageCore_store_nonsystem env store (directInbound content) now (by simp [directInbound])]
  rw [show getSessionKey (directInbound content) = "cli:direct" from rfl]
  simp [updateStore, hk]

/-- Witness for C10 at concrete inputs: the scheduler-style key
`scheduler:job1` and the CLI default `cli:default` give identical
results, and no session other than `cli:direct` is touched. -/
theorem c10_processDirect_fixed_session_witness :
    processDirect sampleAnswerEnv sampleStore "hi" "scheduler:job1" "t1"
        = processDirect sampleAnswerEnv sampleStore "hi" "cli:default" "t1"
      ∧ (processDirect sampleAnswerEnv sampleStore "hi" "scheduler:job1" "t1").1 "telegram:42"
          = sampleStore "telegram:42" :=
  ⟨(c10_processDirect_fixed_session sampleAnswerEnv sampleStore "hi" "scheduler:job1"
      "cli:default" "t1").1,
   (c10_processDirect_fixed_session sampleAnswerEnv sampleStore "hi" "scheduler:job1"
      "cli:default" "t1").2.2.2.2 "telegram:42" (by decide)⟩

end Miniclawd
